import Mathlib

/-!
Verification of the synthetic wind-turbine telemetry generator
(`mockData` module of the monitoring dashboard).

The JavaScript/TypeScript source is shallowly embedded over `ℚ`:
JS numbers become rationals, `Math.round(x*10)/10` becomes `round1`,
`Math.random()` becomes an explicit stream of draws in `[0,1)`, and the
transcendental library calls (`Math.sin`, `Math.exp`, `Math.PI`,
`Math.sqrt(2*Math.PI)`) become fields of an explicit `MathOracle`
parameter, constrained only by the bounds the proofs need (bounds that
the real functions satisfy).  Fallible or absent values (`undefined`)
become `Option`.
-/

/-- JS `Math.round x` rounds to the nearest integer, halves toward `+∞`. -/
def jsRound (x : ℚ) : ℤ := ⌊x + 1/2⌋

/-- JS `Math.round(x * 10) / 10`: round to one decimal place. -/
def round1 (x : ℚ) : ℚ := ((jsRound (x * 10) : ℚ)) / 10

/-- JS `Math.round(x * 100) / 100`: round to two decimal places. -/
def round2 (x : ℚ) : ℚ := ((jsRound (x * 100) : ℚ)) / 100

/-- JS `Math.round(x * 1000) / 1000`: round to three decimal places. -/
def round3 (x : ℚ) : ℚ := ((jsRound (x * 1000) : ℚ)) / 1000

theorem round1_le_int {x : ℚ} {n : ℤ} (h : x < (n : ℚ) + 1/20) : round1 x ≤ (n : ℚ) := by
  unfold round1 jsRound
  rw [div_le_iff₀ (by norm_num : (0:ℚ) < 10)]
  have h2 : ⌊x * 10 + 1/2⌋ < 10 * n + 1 := by
    rw [Int.floor_lt]; push_cast; linarith
  have h3 : ⌊x * 10 + 1/2⌋ ≤ 10 * n := by omega
  calc (⌊x * 10 + 1/2⌋ : ℚ) ≤ ((10 * n : ℤ) : ℚ) := by exact_mod_cast h3
    _ = (n : ℚ) * 10 := by push_cast; ring

theorem int_le_round1 {x : ℚ} {n : ℤ} (h : (n : ℚ) - 1/20 ≤ x) : (n : ℚ) ≤ round1 x := by
  unfold round1 jsRound
  rw [le_div_iff₀ (by norm_num : (0:ℚ) < 10)]
  have h2 : (10 * n : ℤ) ≤ ⌊x * 10 + 1/2⌋ := by
    rw [Int.le_floor]; push_cast; linarith
  calc (n : ℚ) * 10 = ((10 * n : ℤ) : ℚ) := by push_cast; ring
    _ ≤ (⌊x * 10 + 1/2⌋ : ℚ) := by exact_mod_cast h2

theorem round1_eq_zero_iff {x : ℚ} (hx : 0 ≤ x) : round1 x = 0 ↔ x < 1/20 := by
  unfold round1 jsRound
  rw [div_eq_zero_iff]
  constructor
  · rintro (h | h)
    · have h0 : ⌊x * 10 + 1/2⌋ = 0 := by exact_mod_cast h
      have h1 := Int.lt_floor_add_one (x * 10 + 1/2)
      rw [h0] at h1
      push_cast at h1
      linarith
    · norm_num at h
  · intro h
    left
    have h0 : ⌊x * 10 + 1/2⌋ = 0 := by
      rw [Int.floor_eq_zero_iff, Set.mem_Ico]
      constructor <;> [linarith; linarith]
    exact_mod_cast h0

theorem round1_mono {x y : ℚ} (h : x ≤ y) : round1 x ≤ round1 y := by
  unfold round1 jsRound
  have h2 : ⌊x * 10 + 1/2⌋ ≤ ⌊y * 10 + 1/2⌋ := Int.floor_le_floor (by linarith)
  have h3 : ((⌊x * 10 + 1/2⌋ : ℤ) : ℚ) ≤ ((⌊y * 10 + 1/2⌋ : ℤ) : ℚ) := by exact_mod_cast h2
  linarith

/-- Rounding to two decimals fixes every multiple of `1/10` (in particular
every wind speed the generator samples). -/
theorem round2_tenth (m : ℤ) : round2 ((m : ℚ) / 10) = (m : ℚ) / 10 := by
  unfold round2 jsRound
  have h0 : (m : ℚ) / 10 * 100 + 1/2 = ((10 * m : ℤ) : ℚ) + (1/2 : ℚ) := by push_cast; ring
  rw [h0, Int.floor_int_add (10 * m) ((1:ℚ)/2)]
  have h1 : ⌊(1:ℚ)/2⌋ = 0 := by norm_num
  rw [h1]
  push_cast
  ring

/-! ## Power-Curve Model (`calculateExpectedPower`, source lines 40-56) -/

/-- Embedding of `calculateExpectedPower`: piecewise cut-in / rated / cut-out
power curve with a cubic ramp between 3 and 12 m/s. -/
def calculateExpectedPower (windSpeed : ℚ) : ℚ :=
  let cutInSpeed : ℚ := 3
  let ratedSpeed : ℚ := 12
  let cutOutSpeed : ℚ := 25
  let ratedPower : ℚ := 2000
  if windSpeed < cutInSpeed then 0
  else if cutOutSpeed ≤ windSpeed then 0
  else if ratedSpeed ≤ windSpeed then ratedPower
  else
    let normalizedSpeed := (windSpeed - cutInSpeed) / (ratedSpeed - cutInSpeed)
    ratedPower * normalizedSpeed ^ 3

theorem cube_mono {x y : ℚ} (_hx : 0 ≤ x) (hxy : x ≤ y) : x ^ 3 ≤ y ^ 3 := by
  nlinarith [sq_nonneg x, sq_nonneg y, sq_nonneg (x + y)]

theorem calculateExpectedPower_below {w : ℚ} (h : w < 3) :
    calculateExpectedPower w = 0 := by
  simp only [calculateExpectedPower]
  rw [if_pos h]

theorem calculateExpectedPower_cutout {w : ℚ} (h : 25 ≤ w) :
    calculateExpectedPower w = 0 := by
  simp only [calculateExpectedPower]
  rw [if_neg (by linarith), if_pos h]

theorem calculateExpectedPower_rated {w : ℚ} (h1 : 12 ≤ w) (h2 : w < 25) :
    calculateExpectedPower w = 2000 := by
  simp only [calculateExpectedPower]
  rw [if_neg (by linarith), if_neg (by linarith), if_pos h1]

theorem calculateExpectedPower_cubic {w : ℚ} (h1 : 3 ≤ w) (h2 : w < 12) :
    calculateExpectedPower w = 2000 * ((w - 3) / 9) ^ 3 := by
  simp only [calculateExpectedPower]
  rw [if_neg (by linarith), if_neg (by linarith), if_neg (by linarith)]
  norm_num

theorem calculateExpectedPower_nonneg (w : ℚ) : 0 ≤ calculateExpectedPower w := by
  simp only [calculateExpectedPower]
  split_ifs with h1 h2 h3
  · exact le_refl 0
  · exact le_refl 0
  · norm_num
  · push_neg at h1
    have hn : 0 ≤ (w - 3) / 9 := div_nonneg (by linarith) (by norm_num)
    have hp : 0 ≤ ((w - 3) / 9) ^ 3 := pow_nonneg hn 3
    linarith

theorem calculateExpectedPower_pos {w : ℚ} (h3 : 3 < w) (h25 : w < 25) :
    0 < calculateExpectedPower w := by
  simp only [calculateExpectedPower]
  split_ifs with hc1 hc2 hc3
  · linarith
  · linarith
  · norm_num
  · have hn : 0 < (w - 3) / 9 := div_pos (by linarith) (by norm_num)
    have hp : 0 < ((w - 3) / 9) ^ 3 := pow_pos hn 3
    linarith

/-- C1: the power-curve model returns 0 below cut-in (w < 3), 0 at or above
cut-out (w >= 25), 2000 on the rated plateau [12, 25), and the cubic ramp
2000*((w-3)/9)^3 on [3, 12); it is total on all (rational) wind speeds and
monotonically non-decreasing on [3, 12]. -/
theorem c1_power_curve_model :
    (∀ w : ℚ,
      (w < 3 → calculateExpectedPower w = 0) ∧
      (25 ≤ w → calculateExpectedPower w = 0) ∧
      (12 ≤ w → w < 25 → calculateExpectedPower w = 2000) ∧
      (3 ≤ w → w < 12 → calculateExpectedPower w = 2000 * ((w - 3) / 9) ^ 3)) ∧
    (∀ a b : ℚ, 3 ≤ a → a ≤ b → b ≤ 12 →
      calculateExpectedPower a ≤ calculateExpectedPower b) := by
  constructor
  · intro w
    exact ⟨fun h => calculateExpectedPower_below h,
           fun h => calculateExpectedPower_cutout h,
           fun h1 h2 => calculateExpectedPower_rated h1 h2,
           fun h1 h2 => calculateExpectedPower_cubic h1 h2⟩
  · intro a b ha hab hb
    by_cases hb12 : 12 ≤ b
    · have hb' : b = 12 := le_antisymm hb hb12
      rw [hb', calculateExpectedPower_rated (le_refl 12) (by norm_num)]
      by_cases ha12 : 12 ≤ a
      · have ha' : a = 12 := le_antisymm (hb' ▸ hab) ha12
        rw [ha', calculateExpectedPower_rated (le_refl 12) (by norm_num)]
      · push_neg at ha12
        rw [calculateExpectedPower_cubic ha ha12]
        have hx : 0 ≤ (a - 3) / 9 := div_nonneg (by linarith) (by norm_num)
        have hx1 : (a - 3) / 9 ≤ 1 := by
          rw [div_le_one (by norm_num : (0:ℚ) < 9)]; linarith
        have hc : ((a - 3) / 9) ^ 3 ≤ 1 ^ 3 := cube_mono hx hx1
        nlinarith
    · push_neg at hb12
      have ha12 : a < 12 := lt_of_le_of_lt hab hb12
      rw [calculateExpectedPower_cubic ha ha12,
          calculateExpectedPower_cubic (le_trans ha hab) hb12]
      have hx : 0 ≤ (a - 3) / 9 := div_nonneg (by linarith) (by norm_num)
      have hxy : (a - 3) / 9 ≤ (b - 3) / 9 := by
        have h9 : (0:ℚ) < 9 := by norm_num
        rw [div_le_div_iff₀ h9 h9]
        nlinarith
      have hc := cube_mono hx hxy
      nlinarith

/-- Witness for C1 at concrete inputs: every hypothesis of the theorem is
discharged at an explicit wind speed. -/
theorem c1_power_curve_model_witness :
    calculateExpectedPower 2 = 0 ∧
    calculateExpectedPower 30 = 0 ∧
    calculateExpectedPower 13 = 2000 ∧
    calculateExpectedPower 5 = 2000 * (((5:ℚ) - 3) / 9) ^ 3 ∧
    calculateExpectedPower 5 ≤ calculateExpectedPower 7 :=
  ⟨(c1_power_curve_model.1 2).1 (by norm_num),
   (c1_power_curve_model.1 30).2.1 (by norm_num),
   ((c1_power_curve_model.1 13).2.2.1 (by norm_num) (by norm_num)),
   ((c1_power_curve_model.1 5).2.2.2 (by norm_num) (by norm_num)),
   c1_power_curve_model.2 5 7 (by norm_num) (by norm_num) (by norm_num)⟩

/-- C8 counterexample: the spec asserts expectedPower(7.5) = 2000*((7.5-3)/9)^3
which it claims is approximately 216.4; the formula in fact evaluates to 250,
so the quoted numeric value is off by 33.6. -/
theorem c8_counterexample :
    calculateExpectedPower (15/2) = 250 ∧
    (2000 : ℚ) * (((15:ℚ)/2 - 3) / 9) ^ 3 = 250 ∧
    ¬ (|calculateExpectedPower (15/2) - 2164/10| < 1) := by
  have h : calculateExpectedPower (15/2) = 250 := by
    rw [calculateExpectedPower_cubic (by norm_num) (by norm_num)]
    norm_num
  refine ⟨h, by norm_num, ?_⟩
  rw [h, show (250:ℚ) - 2164/10 = 168/5 by norm_num,
      abs_of_nonneg (by norm_num : (0:ℚ) ≤ 168/5)]
  norm_num

/-- C8 amended: expectedPower(12) = 2000, expectedPower(3) = 0, and
expectedPower(7.5) = 2000*((7.5-3)/9)^3 = 250 (the spec's 216.4 corrected). -/
theorem c8_concrete_values :
    calculateExpectedPower 12 = 2000 ∧
    calculateExpectedPower 3 = 0 ∧
    calculateExpectedPower (15/2) = 2000 * (((15:ℚ)/2 - 3) / 9) ^ 3 ∧
    calculateExpectedPower (15/2) = 250 := by
  refine ⟨calculateExpectedPower_rated (by norm_num) (by norm_num), ?_, ?_, ?_⟩
  · rw [calculateExpectedPower_cubic (by norm_num) (by norm_num)]
    norm_num
  · rw [calculateExpectedPower_cubic (by norm_num) (by norm_num)]
  · rw [calculateExpectedPower_cubic (by norm_num) (by norm_num)]
    norm_num

/-! ## Correlation factors (source lines 21-30, 472-564) -/

structure NormalRange where
  min : ℚ
  max : ℚ
deriving DecidableEq

structure HistoryPoint where
  time : ℤ
  value : ℚ
deriving DecidableEq

structure CorrelationFactor where
  id : String
  name : String
  value : ℚ
  deviation : ℚ
  deviationScore : ℚ
  unit : String
  normalRange : NormalRange
  history : List HistoryPoint
deriving DecidableEq

/-- A stream of `Math.random()` draws: every draw lies in `[0, 1)`. -/
def ValidRand (rnd : ℕ → ℚ) : Prop := ∀ n, 0 ≤ rnd n ∧ rnd n < 1

/-- Embedding of the per-factor value draw of `generateNextDataPoint`
(source lines 483-527).  `r1` models the `Math.random()` anomaly coin of the
critical branch, `r2` the `Math.random()` scaled into the value range. -/
def drawNewValue (isCritical : Bool) (f : CorrelationFactor) (r1 r2 : ℚ) : ℚ :=
  if isCritical then
    let isAnomaly := r1 > 7/10
    if f.id = "pitch" then (if isAnomaly then 20 + r2 * 8 else 12 + r2 * 8)
    else if f.id = "rotor" then (if isAnomaly then 6 + r2 * 3 else 11 + r2 * 4)
    else if f.id = "generator" then 85 + r2 * 10
    else if f.id = "windSpeed" then (if isAnomaly then 5 + r2 * 2 else 6 + r2 * 3)
    else f.value
  else
    if f.id = "pitch" then 2 + r2 * 3
    else if f.id = "rotor" then 14 + r2 * 4
    else if f.id = "generator" then 68 + r2 * 6
    else if f.id = "windSpeed" then 9 + r2 * 4
    else f.value

/-- Signed distance of a value outside the normal range, 0 inside
(source lines 529-539; identical to `calculateInitialDeviation`). -/
def computeDeviation (newValue : ℚ) (nr : NormalRange) : ℚ :=
  if newValue < nr.min then nr.min - newValue
  else if newValue > nr.max then newValue - nr.max
  else 0

/-- Normalized deviation score `min(100, |deviation| / rangeWidth * 100)`
(source lines 541-543). -/
def computeDeviationScore (deviation : ℚ) (nr : NormalRange) : ℚ :=
  min 100 (|deviation| / (nr.max - nr.min) * 100)

/-- JS `array.slice(-n)`: the last `n` elements (all of them if shorter). -/
def lastN {α : Type} (n : ℕ) (l : List α) : List α := l.drop (l.length - n)

/-- One factor step of `generateNextDataPoint` (source lines 480-558):
draw a value, recompute deviation and score, append to the history and keep
the last 20 points.  The returned `value`, `deviation` and `deviationScore`
are rounded to one decimal; the history stores the raw drawn value. -/
def updateFactor (isCritical : Bool) (dateNow : ℤ) (f : CorrelationFactor) (r1 r2 : ℚ) :
    CorrelationFactor :=
  let newValue := drawNewValue isCritical f r1 r2
  let deviation := computeDeviation newValue f.normalRange
  let deviationScore := computeDeviationScore deviation f.normalRange
  let newHistory := lastN 20 (f.history ++ [{ time := dateNow, value := newValue }])
  { f with
    value := round1 newValue
    deviation := round1 deviation
    deviationScore := round1 deviationScore
    history := newHistory }

/-- Recursion over the factor list; factor `i` consumes stream slots
`2*i` (anomaly coin) and `2*i+1` (value draw). -/
def nextAux (isCritical : Bool) (dateNow : ℤ) (rnd : ℕ → ℚ) :
    ℕ → List CorrelationFactor → List CorrelationFactor
  | _, [] => []
  | i, f :: fs =>
      updateFactor isCritical dateNow f (rnd (2 * i)) (rnd (2 * i + 1)) ::
        nextAux isCritical dateNow rnd (i + 1) fs

/-- Embedding of `generateNextDataPoint` (source lines 472-559).  The source
ignores its `currentTime` argument; `dateNow` models `Date.now()` and `rnd`
the `Math.random()` stream. -/
def generateNextDataPoint (unitId _currentTime : ℕ) (currentFactors : List CorrelationFactor)
    (dateNow : ℤ) (rnd : ℕ → ℚ) : List CorrelationFactor :=
  nextAux (unitId == 6) dateNow rnd 0 currentFactors

/-- Embedding of `sortFactorsByDeviation` (source lines 562-564): the JS
stable sort with comparator `(a, b) => b.deviationScore - a.deviationScore`,
i.e. a stable sort into descending `deviationScore` order. -/
def sortFactorsByDeviation (factors : List CorrelationFactor) : List CorrelationFactor :=
  List.insertionSort (fun a b => b.deviationScore ≤ a.deviationScore) factors

/-- The spec's `advanceFactors(unitId, tickIndex, currentFactors)`: the
dashboard (Sidebar.tsx lines 165-167) feeds each `generateNextDataPoint`
result through `sortFactorsByDeviation`. -/
def advanceFactors (unitId tickIndex : ℕ) (currentFactors : List CorrelationFactor)
    (dateNow : ℤ) (rnd : ℕ → ℚ) : List CorrelationFactor :=
  sortFactorsByDeviation (generateNextDataPoint unitId tickIndex currentFactors dateNow rnd)

instance : IsTotal CorrelationFactor (fun a b => b.deviationScore ≤ a.deviationScore) :=
  ⟨fun a b => le_total b.deviationScore a.deviationScore⟩

instance : IsTrans CorrelationFactor (fun a b => b.deviationScore ≤ a.deviationScore) :=
  ⟨fun _ _ _ h1 h2 => le_trans h2 h1⟩

/-- C2: after a tick, the factor sequence returned by `advanceFactors`
(`generateNextDataPoint` followed by the `sortFactorsByDeviation` call the
dashboard applies to every tick result) is sorted in descending order of
`deviationScore`, for every unit, factor list and random stream. -/
theorem c2_advance_factors_sorted (unitId tickIndex : ℕ)
    (currentFactors : List CorrelationFactor) (dateNow : ℤ) (rnd : ℕ → ℚ) :
    List.Sorted (fun a b => b.deviationScore ≤ a.deviationScore)
      (advanceFactors unitId tickIndex currentFactors dateNow rnd) :=
  List.sorted_insertionSort _ _

theorem computeDeviation_nonneg (v : ℚ) (nr : NormalRange) : 0 ≤ computeDeviation v nr := by
  simp only [computeDeviation]
  split_ifs with h1 h2
  · linarith
  · linarith
  · exact le_refl 0

theorem computeDeviationScore_nonneg (d : ℚ) {nr : NormalRange}
    (hw : nr.min < nr.max) : 0 ≤ computeDeviationScore d nr := by
  simp only [computeDeviationScore]
  apply le_min (by norm_num)
  have hwid : (0:ℚ) < nr.max - nr.min := by linarith
  positivity

theorem computeDeviationScore_le (d : ℚ) (nr : NormalRange) :
    computeDeviationScore d nr ≤ 100 := by
  simp only [computeDeviationScore]
  exact min_le_left _ _

theorem computeDeviation_eq_zero {v : ℚ} {nr : NormalRange}
    (h1 : nr.min ≤ v) (h2 : v ≤ nr.max) : computeDeviation v nr = 0 := by
  simp only [computeDeviation]
  rw [if_neg (by linarith), if_neg (by linarith)]

theorem lastN_length_le {α : Type} (n : ℕ) (l : List α) : (lastN n l).length ≤ n := by
  simp only [lastN, List.length_drop]
  omega

theorem updateFactor_deviationScore (isCritical : Bool) (dateNow : ℤ)
    (f : CorrelationFactor) (r1 r2 : ℚ) :
    (updateFactor isCritical dateNow f r1 r2).deviationScore =
      round1 (computeDeviationScore
        (computeDeviation (drawNewValue isCritical f r1 r2) f.normalRange) f.normalRange) :=
  rfl

theorem updateFactor_history_le (isCritical : Bool) (dateNow : ℤ)
    (f : CorrelationFactor) (r1 r2 : ℚ) :
    (updateFactor isCritical dateNow f r1 r2).history.length ≤ 20 :=
  lastN_length_le 20 _

theorem updateFactor_score_bounds (isCritical : Bool) (dateNow : ℤ)
    (f : CorrelationFactor) (r1 r2 : ℚ) (hw : f.normalRange.min < f.normalRange.max) :
    0 ≤ (updateFactor isCritical dateNow f r1 r2).deviationScore ∧
      (updateFactor isCritical dateNow f r1 r2).deviationScore ≤ 100 := by
  rw [updateFactor_deviationScore]
  set s := computeDeviationScore
    (computeDeviation (drawNewValue isCritical f r1 r2) f.normalRange) f.normalRange with hs
  have hs0 : 0 ≤ s := computeDeviationScore_nonneg _ hw
  have hs100 : s ≤ 100 := computeDeviationScore_le _ _
  constructor
  · have h := @int_le_round1 s 0 (by push_cast; linarith)
    exact_mod_cast h
  · have h := @round1_le_int s 100 (by push_cast; linarith)
    exact_mod_cast h

/-- Every member of a `nextAux` result is an `updateFactor` image of some
input factor. -/
theorem mem_nextAux {isCritical : Bool} {dateNow : ℤ} {rnd : ℕ → ℚ} :
    ∀ {i : ℕ} {fs : List CorrelationFactor} {g : CorrelationFactor},
      g ∈ nextAux isCritical dateNow rnd i fs →
      ∃ f ∈ fs, ∃ j : ℕ, g = updateFactor isCritical dateNow f (rnd (2 * j)) (rnd (2 * j + 1))
  | _, [], _, h => by simp [nextAux] at h
  | i, f :: fs, g, h => by
    simp only [nextAux, List.mem_cons] at h
    rcases h with h | h
    · exact ⟨f, List.mem_cons_self f fs, i, h⟩
    · obtain ⟨f0, hf0, j, hj⟩ := mem_nextAux h
      exact ⟨f0, List.mem_cons_of_mem f hf0, j, hj⟩

/-- C3 amended: for every factor returned by `advanceFactors` (given factors
with non-degenerate normal ranges), `history.length <= 20` and
`deviationScore` lies in `[0, 100]`.  The returned `deviationScore` is the
ONE-DECIMAL ROUNDING of `min(100, |deviation|/(max-min)*100)` computed from
the raw (unrounded) drawn value — not that quantity exactly — and it is 0
iff that raw score is below 0.05 (the rounding threshold), not iff the
returned rounded `value` lies inside the normal range. -/
theorem c3_factor_invariants :
    (∀ (unitId tickIndex : ℕ) (fs : List CorrelationFactor) (dateNow : ℤ) (rnd : ℕ → ℚ),
      (∀ f ∈ fs, f.normalRange.min < f.normalRange.max) →
      ∀ g ∈ advanceFactors unitId tickIndex fs dateNow rnd,
        g.history.length ≤ 20 ∧ 0 ≤ g.deviationScore ∧ g.deviationScore ≤ 100) ∧
    (∀ (isCritical : Bool) (dateNow : ℤ) (f : CorrelationFactor) (r1 r2 : ℚ),
      f.normalRange.min < f.normalRange.max →
      (updateFactor isCritical dateNow f r1 r2).deviationScore =
        round1 (computeDeviationScore
          (computeDeviation (drawNewValue isCritical f r1 r2) f.normalRange) f.normalRange) ∧
      ((updateFactor isCritical dateNow f r1 r2).deviationScore = 0 ↔
        computeDeviationScore
          (computeDeviation (drawNewValue isCritical f r1 r2) f.normalRange) f.normalRange
          < 1/20)) := by
  constructor
  · intro unitId tickIndex fs dateNow rnd hw g hg
    have hperm : List.Perm (advanceFactors unitId tickIndex fs dateNow rnd)
        (generateNextDataPoint unitId tickIndex fs dateNow rnd) :=
      List.perm_insertionSort _ _
    have hg2 : g ∈ generateNextDataPoint unitId tickIndex fs dateNow rnd :=
      hperm.mem_iff.mp hg
    obtain ⟨f, hf, j, hj⟩ := mem_nextAux hg2
    subst hj
    obtain ⟨hb0, hb100⟩ := updateFactor_score_bounds _ _ _ _ _ (hw f hf)
    exact ⟨updateFactor_history_le _ _ _ _ _, hb0, hb100⟩
  · intro isCritical dateNow f r1 r2 hw
    refine ⟨updateFactor_deviationScore _ _ _ _ _, ?_⟩
    rw [updateFactor_deviationScore]
    exact round1_eq_zero_iff (computeDeviationScore_nonneg _ hw)

/-- A concrete standard factor record (a nominal-unit rotor-speed factor). -/
def rotorTest : CorrelationFactor :=
  { id := "rotor", name := "Rotor Speed", value := 16, deviation := 0, deviationScore := 0,
    unit := "RPM", normalRange := { min := 14, max := 18 }, history := [] }

/-- A concrete standard factor record (a nominal-unit pitch-angle factor). -/
def pitchTest : CorrelationFactor :=
  { id := "pitch", name := "Pitch Angle", value := 3, deviation := 0, deviationScore := 0,
    unit := "°", normalRange := { min := 0, max := 5 }, history := [] }

/-- A random stream whose anomaly coin gives 0 (no anomaly) and whose value
draw gives 0.7425, so the critical rotor draw is 11 + 0.7425*4 = 13.97. -/
def rndC3 : ℕ → ℚ := fun n => if n = 1 then 297/400 else 0

/-- The everywhere-zero random stream. -/
def rnd0 : ℕ → ℚ := fun _ => 0

theorem validRand_rnd0 : ValidRand rnd0 := fun _ => ⟨le_refl 0, by norm_num [rnd0]⟩

/-- C3 counterexample: for the critical unit 6 and the standard rotor factor,
the draw 13.97 yields a returned record whose (rounded) `value` 14.0 lies
INSIDE the normal range [14, 18] while its `deviationScore` is 0.8, not 0 —
refuting both the claimed exact score formula (raw score is 0.75) and the
claimed "score = 0 iff value in range" equivalence. -/
theorem c3_counterexample :
    updateFactor true 0 rotorTest (rndC3 0) (rndC3 1) ∈
      advanceFactors 6 0 [rotorTest] 0 rndC3 ∧
    (updateFactor true 0 rotorTest (rndC3 0) (rndC3 1)).normalRange.min ≤
      (updateFactor true 0 rotorTest (rndC3 0) (rndC3 1)).value ∧
    (updateFactor true 0 rotorTest (rndC3 0) (rndC3 1)).value ≤
      (updateFactor true 0 rotorTest (rndC3 0) (rndC3 1)).normalRange.max ∧
    (updateFactor true 0 rotorTest (rndC3 0) (rndC3 1)).value = 14 ∧
    (updateFactor true 0 rotorTest (rndC3 0) (rndC3 1)).deviationScore = 4/5 ∧
    (updateFactor true 0 rotorTest (rndC3 0) (rndC3 1)).deviationScore ≠ 0 := by
  have hdraw : drawNewValue true rotorTest (rndC3 0) (rndC3 1) = 1397/100 := by
    simp only [drawNewValue, rotorTest, rndC3, String.reduceEq, if_false]
    norm_num
  have hdev : computeDeviation (1397/100) rotorTest.normalRange = 3/100 := by
    norm_num [computeDeviation, rotorTest]
  have hscore : computeDeviationScore (3/100) rotorTest.normalRange = 3/4 := by
    simp only [computeDeviationScore, rotorTest]
    rw [abs_of_nonneg (by norm_num : (0:ℚ) ≤ 3/100)]
    norm_num
  have hg : updateFactor true 0 rotorTest (rndC3 0) (rndC3 1) =
      { id := "rotor", name := "Rotor Speed", value := 14, deviation := 0,
        deviationScore := 4/5, unit := "RPM", normalRange := { min := 14, max := 18 },
        history := [{ time := 0, value := 1397/100 }] } := by
    simp only [updateFactor, hdraw, hdev, hscore]
    norm_num [rotorTest, round1, jsRound, lastN]
  have hlist : advanceFactors 6 0 [rotorTest] 0 rndC3 =
      [updateFactor true 0 rotorTest (rndC3 0) (rndC3 1)] := by
    simp [advanceFactors, generateNextDataPoint, nextAux, sortFactorsByDeviation,
      List.insertionSort, List.orderedInsert]
  refine ⟨by rw [hlist]; exact List.mem_singleton.mpr rfl, ?_, ?_, ?_, ?_, ?_⟩ <;>
    rw [hg] <;> norm_num

/-- Witness for C3 at a concrete input: the nominal unit 1, the standard
pitch factor, and the all-zero random stream. -/
theorem c3_factor_invariants_witness :
    updateFactor false 0 pitchTest (rnd0 0) (rnd0 1) ∈
      advanceFactors 1 0 [pitchTest] 0 rnd0 ∧
    ((updateFactor false 0 pitchTest (rnd0 0) (rnd0 1)).history.length ≤ 20 ∧
      0 ≤ (updateFactor false 0 pitchTest (rnd0 0) (rnd0 1)).deviationScore ∧
      (updateFactor false 0 pitchTest (rnd0 0) (rnd0 1)).deviationScore ≤ 100) ∧
    ((updateFactor false 0 pitchTest (rnd0 0) (rnd0 1)).deviationScore =
        round1 (computeDeviationScore
          (computeDeviation (drawNewValue false pitchTest (rnd0 0) (rnd0 1))
            pitchTest.normalRange) pitchTest.normalRange) ∧
      ((updateFactor false 0 pitchTest (rnd0 0) (rnd0 1)).deviationScore = 0 ↔
        computeDeviationScore
          (computeDeviation (drawNewValue false pitchTest (rnd0 0) (rnd0 1))
            pitchTest.normalRange) pitchTest.normalRange < 1/20)) := by
  have hmem : updateFactor false 0 pitchTest (rnd0 0) (rnd0 1) ∈
      advanceFactors 1 0 [pitchTest] 0 rnd0 := by
    have hlist : advanceFactors 1 0 [pitchTest] 0 rnd0 =
        [updateFactor false 0 pitchTest (rnd0 0) (rnd0 1)] := by
      simp [advanceFactors, generateNextDataPoint, nextAux, sortFactorsByDeviation,
        List.insertionSort, List.orderedInsert]
    rw [hlist]; exact List.mem_singleton.mpr rfl
  refine ⟨hmem, ?_, ?_⟩
  · exact c3_factor_invariants.1 1 0 [pitchTest] 0 rnd0
      (by intro f hf; rw [List.mem_singleton.mp hf]; norm_num [pitchTest]) _ hmem
  · exact c3_factor_invariants.2 false 0 pitchTest (rnd0 0) (rnd0 1)
      (by norm_num [pitchTest])

theorem round1_zero : round1 0 = 0 := by
  norm_num [round1, jsRound]

theorem computeDeviationScore_zero (nr : NormalRange) : computeDeviationScore 0 nr = 0 := by
  simp only [computeDeviationScore, abs_zero, zero_div, zero_mul]
  exact min_eq_right (by norm_num)

theorem updateFactor_value (isCritical : Bool) (dateNow : ℤ)
    (f : CorrelationFactor) (r1 r2 : ℚ) :
    (updateFactor isCritical dateNow f r1 r2).value =
      round1 (drawNewValue isCritical f r1 r2) :=
  rfl

theorem updateFactor_deviation (isCritical : Bool) (dateNow : ℤ)
    (f : CorrelationFactor) (r1 r2 : ℚ) :
    (updateFactor isCritical dateNow f r1 r2).deviation =
      round1 (computeDeviation (drawNewValue isCritical f r1 r2) f.normalRange) :=
  rfl

theorem updateFactor_normalRange (isCritical : Bool) (dateNow : ℤ)
    (f : CorrelationFactor) (r1 r2 : ℚ) :
    (updateFactor isCritical dateNow f r1 r2).normalRange = f.normalRange :=
  rfl

/-- A factor record carrying one of the four configured ids together with
the normal range `initializeCorrelationFactors` assigns to that id (the only
factor shapes the dashboard ever produces). -/
def StandardFactor (f : CorrelationFactor) : Prop :=
  (f.id = "pitch" ∧ f.normalRange = { min := 0, max := 5 }) ∨
  (f.id = "rotor" ∧ f.normalRange = { min := 14, max := 18 }) ∨
  (f.id = "generator" ∧ f.normalRange = { min := 65, max := 75 }) ∨
  (f.id = "windSpeed" ∧ f.normalRange = { min := 8, max := 14 })

theorem standard_draw_bounds {f : CorrelationFactor} {r1 r2 : ℚ}
    (h0 : 0 ≤ r2) (h1 : r2 < 1) (hs : StandardFactor f) :
    f.normalRange.min ≤ drawNewValue false f r1 r2 ∧
      drawNewValue false f r1 r2 ≤ f.normalRange.max := by
  rcases hs with ⟨hid, hr⟩ | ⟨hid, hr⟩ | ⟨hid, hr⟩ | ⟨hid, hr⟩ <;>
    simp only [drawNewValue, hid, hr, String.reduceEq, if_false, if_true,
      Bool.false_eq_true] <;>
    constructor <;> linarith

theorem standard_range_int {f : CorrelationFactor} (hs : StandardFactor f) :
    ∃ a b : ℤ, f.normalRange.min = (a : ℚ) ∧ f.normalRange.max = (b : ℚ) := by
  rcases hs with ⟨_, hr⟩ | ⟨_, hr⟩ | ⟨_, hr⟩ | ⟨_, hr⟩
  · exact ⟨0, 5, by rw [hr]; norm_num, by rw [hr]; norm_num⟩
  · exact ⟨14, 18, by rw [hr]; norm_num, by rw [hr]; norm_num⟩
  · exact ⟨65, 75, by rw [hr]; norm_num, by rw [hr]; norm_num⟩
  · exact ⟨8, 14, by rw [hr]; norm_num, by rw [hr]; norm_num⟩

/-- C10: for every non-critical unit (any unitId other than 6, including the
warning unit 4) and every standard factor (one of pitch / rotor / generator /
windSpeed with its configured normal range), the value drawn by
`generateNextDataPoint` lies inside the factor's normal range for every
random draw, and hence the returned `deviation` and `deviationScore` are 0
and the returned (rounded) `value` stays inside the range. -/
theorem c10_noncritical_in_range :
    (∀ (f : CorrelationFactor) (r1 r2 : ℚ), 0 ≤ r2 → r2 < 1 → StandardFactor f →
      f.normalRange.min ≤ drawNewValue false f r1 r2 ∧
        drawNewValue false f r1 r2 ≤ f.normalRange.max) ∧
    (∀ (unitId tickIndex : ℕ) (fs : List CorrelationFactor) (dateNow : ℤ) (rnd : ℕ → ℚ),
      unitId ≠ 6 → ValidRand rnd → (∀ f ∈ fs, StandardFactor f) →
      ∀ g ∈ generateNextDataPoint unitId tickIndex fs dateNow rnd,
        g.deviation = 0 ∧ g.deviationScore = 0 ∧
        g.normalRange.min ≤ g.value ∧ g.value ≤ g.normalRange.max) := by
  constructor
  · intro f r1 r2 h0 h1 hs
    exact standard_draw_bounds h0 h1 hs
  · intro unitId tickIndex fs dateNow rnd hu hr hsf g hg
    have hb : (unitId == 6) = false := beq_eq_false_iff_ne.mpr hu
    rw [generateNextDataPoint, hb] at hg
    obtain ⟨f, hf, j, hj⟩ := mem_nextAux hg
    subst hj
    obtain ⟨hlo, hhi⟩ := standard_draw_bounds (hr (2*j+1)).1 (hr (2*j+1)).2 (hsf f hf)
    have hdev : computeDeviation (drawNewValue false f (rnd (2*j)) (rnd (2*j+1)))
        f.normalRange = 0 := computeDeviation_eq_zero hlo hhi
    refine ⟨?_, ?_, ?_, ?_⟩
    · rw [updateFactor_deviation, hdev, round1_zero]
    · rw [updateFactor_deviationScore, hdev, computeDeviationScore_zero, round1_zero]
    · rw [updateFactor_value, updateFactor_normalRange]
      obtain ⟨a, b, hmin, hmax⟩ := standard_range_int (hsf f hf)
      rw [hmin]
      exact int_le_round1 (by rw [hmin] at hlo; linarith)
    · rw [updateFactor_value, updateFactor_normalRange]
      obtain ⟨a, b, hmin, hmax⟩ := standard_range_int (hsf f hf)
      rw [hmax]
      exact round1_le_int (by rw [hmax] at hhi; linarith)

theorem nextDataPoint_pitchTest_eval :
    generateNextDataPoint 1 0 [pitchTest] 0 rnd0 =
      [updateFactor false 0 pitchTest (rnd0 0) (rnd0 1)] := by
  simp [generateNextDataPoint, nextAux]

/-- Witness for C10 at a concrete input: unit 1, the standard pitch factor,
and the all-zero random stream. -/
theorem c10_noncritical_in_range_witness :
    (pitchTest.normalRange.min ≤ drawNewValue false pitchTest (1/2) (1/2) ∧
      drawNewValue false pitchTest (1/2) (1/2) ≤ pitchTest.normalRange.max) ∧
    ((updateFactor false 0 pitchTest (rnd0 0) (rnd0 1)).deviation = 0 ∧
      (updateFactor false 0 pitchTest (rnd0 0) (rnd0 1)).deviationScore = 0 ∧
      (updateFactor false 0 pitchTest (rnd0 0) (rnd0 1)).normalRange.min ≤
        (updateFactor false 0 pitchTest (rnd0 0) (rnd0 1)).value ∧
      (updateFactor false 0 pitchTest (rnd0 0) (rnd0 1)).value ≤
        (updateFactor false 0 pitchTest (rnd0 0) (rnd0 1)).normalRange.max) := by
  have hmem : updateFactor false 0 pitchTest (rnd0 0) (rnd0 1) ∈
      generateNextDataPoint 1 0 [pitchTest] 0 rnd0 := by
    rw [nextDataPoint_pitchTest_eval]
    exact List.mem_singleton.mpr rfl
  refine ⟨c10_noncritical_in_range.1 pitchTest (1/2) (1/2) (by norm_num) (by norm_num)
    (Or.inl ⟨rfl, rfl⟩), ?_⟩
  exact c10_noncritical_in_range.2 1 0 [pitchTest] 0 rnd0 (by norm_num) validRand_rnd0
    (by intro f hf; rw [List.mem_singleton.mp hf]; exact Or.inl ⟨rfl, rfl⟩) _ hmem

/-! ## Power-curve sample generator (source lines 3-10, 59-241)

The sampled wind-speed grid is fixed: 0 to 4 m/s in steps of 0.5, then
4.1 to 11 in steps of 0.1, then 11.5 to 25 in steps of 0.5 (source lines
66-83; the floating-point loops are modelled by their exact rational
grids).  `Math.sin`, `Math.exp`, `Math.PI` and `Math.sqrt(2*Math.PI)` are
modelled by an oracle record since they are transcendental; `ValidOracle`
states the two bounds the proofs rely on, both true of the real
functions. -/

structure PowerCurveDataPoint where
  windSpeed : ℚ
  actualPower : Option ℚ
  minPower : ℚ
  maxPower : ℚ
  expectedPower : ℚ
  timestamp : ℚ
deriving DecidableEq

structure MathOracle where
  sin : ℚ → ℚ
  exp : ℚ → ℚ
  pi : ℚ
  sqrt2pi : ℚ

/-- The two facts about `Math.sin`/`Math.exp` the development uses:
`sin(p*π) ∈ [0,1]` for `p ∈ [0,1]`, and `exp` is nonnegative. -/
def ValidOracle (o : MathOracle) : Prop :=
  (∀ p : ℚ, 0 ≤ p → p ≤ 1 → 0 ≤ o.sin (p * o.pi) ∧ o.sin (p * o.pi) ≤ 1) ∧
  (∀ x : ℚ, 0 ≤ o.exp x)

/-- The three-zone wind-speed grid of `generatePowerCurveData`:
9 coarse points 0..4, 70 dense points 4.1..11, 28 coarse points 11.5..25. -/
def windSpeeds : List ℚ :=
  ((List.range 9).map (fun k : ℕ => (k : ℚ) / 2)) ++
  ((List.range 70).map (fun k : ℕ => 41/10 + (k : ℚ) / 10)) ++
  ((List.range 28).map (fun k : ℕ => 23/2 + (k : ℚ) / 2))

/-- The five preset spike positions of the critical unit (source line 200). -/
def spikePositions : List ℚ := [13/2, 10, 27/2, 17, 41/2]

/-- The `actualPower` synthesis inside the sampling loop of
`generatePowerCurveData` (source lines 97-227), evaluated only when the
wind speed is in the operating window.  `r` is the single `Math.random()`
draw the executed branch consumes. -/
def computeActual (unitId : ℕ) (o : MathOracle)
    (r windSpeed expectedPower minPower maxPower : ℚ) : ℚ :=
  if unitId ≠ 6 then
    if windSpeed > 11 then
      min (expectedPower * (98/100 + r * (2/100))) (expectedPower * 1)
    else if 4 ≤ windSpeed ∧ windSpeed ≤ 11 then
      if unitId = 4 then
        let rampProgress := (windSpeed - 4) / 7
        let dipCycle := o.sin (rampProgress * o.pi)
        let baseEfficiency := 75/100 + 20/100 * (1 - dipCycle)
        let randomVariation := r * (3/100)
        let a1 := expectedPower * (baseEfficiency + randomVariation)
        let a2 := min a1 (maxPower * (98/100))
        let a3 := if dipCycle > 1/2 then min a2 (minPower * (88/100)) else a2
        if rampProgress > 7/10 then
          let recoveryFactor := (rampProgress - 7/10) / (3/10)
          max a3 (expectedPower * (80/100 + recoveryFactor * (15/100)))
        else a3
      else
        let rampProgress := (windSpeed - 4) / 7
        let dipCycle := o.sin (rampProgress * o.pi)
        let baseEfficiency := 88/100 + 7/100 * (1 - dipCycle)
        let randomVariation := r * (3/100)
        let a1 := expectedPower * (baseEfficiency + randomVariation)
        let a2 := min a1 (maxPower * (98/100))
        if dipCycle > 1/2 then min a2 (minPower * (102/100)) else a2
    else
      expectedPower * (85/100 + r * (10/100))
  else
    let baselineLow := minPower * (45/100)
    match spikePositions.find? (fun spikePos => |windSpeed - spikePos| < 6/5) with
    | some spikePos =>
        let normalizedDist := |windSpeed - spikePos| / (6/5)
        let spikeStrength := o.exp (-8 * normalizedDist * normalizedDist)
        let maxSpikeHeight := minPower * (7/10 + r * (15/100))
        baselineLow + (maxSpikeHeight - baselineLow) * spikeStrength
    | none => baselineLow * (85/100 + r * (3/10))

/-- One sample of `generatePowerCurveData` (source lines 86-237).  The
`actualPower` field reproduces both the operating-window guard
(`3 <= ws <= 25`) and the JS truthiness check `actualPower ? round : undefined`,
which drops an actual power of exactly 0. -/
def mkSample (unitId numPoints : ℕ) (now : ℤ) (o : MathOracle) (r windSpeed : ℚ) :
    PowerCurveDataPoint :=
  let expectedPower := calculateExpectedPower windSpeed
  let minPower := expectedPower * (85/100)
  let maxPower := expectedPower * (105/100)
  let actualRaw := computeActual unitId o r windSpeed expectedPower minPower maxPower
  { windSpeed := round2 windSpeed
    actualPower :=
      if 3 ≤ windSpeed ∧ windSpeed ≤ 25 then
        (if actualRaw = 0 then none else some (round1 actualRaw))
      else none
    minPower := round1 minPower
    maxPower := round1 maxPower
    expectedPower := round1 expectedPower
    timestamp := (now : ℚ) - ((numPoints : ℚ) - windSpeed * 4) * 5 * 60 * 1000 }

/-- Recursion over the wind-speed grid; sample `i` consumes stream slot `i`. -/
def genPCAux (unitId numPoints : ℕ) (now : ℤ) (o : MathOracle) (rnd : ℕ → ℚ) :
    ℕ → List ℚ → List PowerCurveDataPoint
  | _, [] => []
  | i, ws :: rest =>
      mkSample unitId numPoints now o (rnd i) ws ::
        genPCAux unitId numPoints now o rnd (i + 1) rest

/-- Embedding of `generatePowerCurveData` (source lines 59-241). -/
def generatePowerCurveData (unitId numPoints : ℕ) (now : ℤ) (o : MathOracle)
    (rnd : ℕ → ℚ) : List PowerCurveDataPoint :=
  genPCAux unitId numPoints now o rnd 0 windSpeeds

/-- The all-zero oracle satisfies the oracle bounds. -/
def o0 : MathOracle := { sin := fun _ => 0, exp := fun _ => 0, pi := 3, sqrt2pi := 1 }

theorem validOracle_o0 : ValidOracle o0 :=
  ⟨fun _ _ _ => by constructor <;> norm_num [o0], fun _ => by norm_num [o0]⟩

theorem mem_genPCAux {unitId numPoints : ℕ} {now : ℤ} {o : MathOracle} {rnd : ℕ → ℚ} :
    ∀ {i : ℕ} {l : List ℚ} {p : PowerCurveDataPoint},
      p ∈ genPCAux unitId numPoints now o rnd i l →
      ∃ ws ∈ l, ∃ j, p = mkSample unitId numPoints now o (rnd j) ws
  | _, [], _, h => by simp [genPCAux] at h
  | i, ws :: rest, p, h => by
    simp only [genPCAux, List.mem_cons] at h
    rcases h with h | h
    · exact ⟨ws, List.mem_cons_self ws rest, i, h⟩
    · obtain ⟨w0, hw0, j, hj⟩ := mem_genPCAux h
      exact ⟨w0, List.mem_cons_of_mem ws hw0, j, hj⟩

theorem genPCAux_mem_of (unitId numPoints : ℕ) (now : ℤ) (o : MathOracle) (rnd : ℕ → ℚ) :
    ∀ (i : ℕ) (l : List ℚ) {ws : ℚ}, ws ∈ l →
      ∃ j, mkSample unitId numPoints now o (rnd j) ws ∈
        genPCAux unitId numPoints now o rnd i l
  | _, [], _, h => by simp at h
  | i, w0 :: rest, ws, h => by
    rcases List.mem_cons.mp h with h | h
    · subst h
      exact ⟨i, List.mem_cons_self _ _⟩
    · obtain ⟨j, hj⟩ := genPCAux_mem_of unitId numPoints now o rnd (i + 1) rest h
      exact ⟨j, List.mem_cons_of_mem _ hj⟩

theorem mem_windSpeeds_cases {ws : ℚ} (h : ws ∈ windSpeeds) :
    (∃ k : ℕ, k < 9 ∧ ws = (k : ℚ) / 2) ∨
    (∃ k : ℕ, k < 70 ∧ ws = 41/10 + (k : ℚ) / 10) ∨
    (∃ k : ℕ, k < 28 ∧ ws = 23/2 + (k : ℚ) / 2) := by
  rcases List.mem_append.mp h with hab | h0
  · rcases List.mem_append.mp hab with h0 | h0
    · obtain ⟨k, hk, hw⟩ := List.mem_map.mp h0
      exact Or.inl ⟨k, List.mem_range.mp hk, hw.symm⟩
    · obtain ⟨k, hk, hw⟩ := List.mem_map.mp h0
      exact Or.inr (Or.inl ⟨k, List.mem_range.mp hk, hw.symm⟩)
  · obtain ⟨k, hk, hw⟩ := List.mem_map.mp h0
    exact Or.inr (Or.inr ⟨k, List.mem_range.mp hk, hw.symm⟩)

theorem windSpeeds_tenth {ws : ℚ} (h : ws ∈ windSpeeds) : ∃ m : ℤ, ws = (m : ℚ) / 10 := by
  rcases mem_windSpeeds_cases h with ⟨k, _, rfl⟩ | ⟨k, _, rfl⟩ | ⟨k, _, rfl⟩
  · exact ⟨5 * k, by push_cast; ring⟩
  · exact ⟨41 + k, by push_cast; ring⟩
  · exact ⟨115 + 5 * k, by push_cast; ring⟩

theorem windSpeeds_bounds {ws : ℚ} (h : ws ∈ windSpeeds) : 0 ≤ ws ∧ ws ≤ 25 := by
  rcases mem_windSpeeds_cases h with ⟨k, hk, rfl⟩ | ⟨k, hk, rfl⟩ | ⟨k, hk, rfl⟩
  · have hk8 : (k : ℚ) ≤ 8 := by exact_mod_cast Nat.le_of_lt_succ hk
    constructor
    · positivity
    · linarith
  · have hk69 : (k : ℚ) ≤ 69 := by exact_mod_cast Nat.le_of_lt_succ hk
    have hk0 : (0:ℚ) ≤ (k : ℚ) := by positivity
    constructor <;> linarith
  · have hk27 : (k : ℚ) ≤ 27 := by exact_mod_cast Nat.le_of_lt_succ hk
    have hk0 : (0:ℚ) ≤ (k : ℚ) := by positivity
    constructor <;> linarith

theorem round2_windSpeeds {ws : ℚ} (h : ws ∈ windSpeeds) : round2 ws = ws := by
  obtain ⟨m, rfl⟩ := windSpeeds_tenth h
  exact round2_tenth m

theorem findSpike_none_low {ws : ℚ} (h : ws ≤ 53/10) :
    spikePositions.find? (fun spikePos => |ws - spikePos| < 6/5) = none := by
  rw [List.find?_eq_none]
  intro p hp
  fin_cases hp <;>
  · simp only [decide_eq_true_eq, not_lt]
    rw [abs_of_nonpos (by linarith)]
    linarith

theorem findSpike_none_high {ws : ℚ} (h : 217/10 ≤ ws) :
    spikePositions.find? (fun spikePos => |ws - spikePos| < 6/5) = none := by
  rw [List.find?_eq_none]
  intro p hp
  fin_cases hp <;>
  · simp only [decide_eq_true_eq, not_lt]
    rw [abs_of_nonneg (by linarith)]
    linarith

theorem computeActual_pos (unitId : ℕ) {o : MathOracle} {r ws : ℚ}
    (ho : ValidOracle o) (hr0 : 0 ≤ r) (h3 : 3 < ws) (h25 : ws < 25) :
    0 < computeActual unitId o r ws (calculateExpectedPower ws)
        (calculateExpectedPower ws * (85/100)) (calculateExpectedPower ws * (105/100)) := by
  have he : 0 < calculateExpectedPower ws := calculateExpectedPower_pos h3 h25
  set e := calculateExpectedPower ws with hedef
  have hminP : 0 < e * (85/100) := mul_pos he (by norm_num)
  have hmaxP : 0 < e * (105/100) := mul_pos he (by norm_num)
  simp only [computeActual]
  by_cases hu6 : unitId ≠ 6
  · rw [if_pos hu6]
    by_cases hz1 : ws > 11
    · rw [if_pos hz1]
      exact lt_min (mul_pos he (by linarith)) (by simpa using he)
    · rw [if_neg hz1]
      by_cases hz2 : 4 ≤ ws ∧ ws ≤ 11
      · rw [if_pos hz2]
        obtain ⟨hdl, hdu⟩ := ho.1 ((ws - 4) / 7)
          (div_nonneg (by linarith [hz2.1]) (by norm_num))
          ((div_le_one (by norm_num : (0:ℚ) < 7)).mpr (by linarith [hz2.2]))
        by_cases hu4 : unitId = 4
        · rw [if_pos hu4]
          split_ifs with hrp hd hd
          · refine lt_max_iff.mpr (Or.inr (mul_pos he ?_))
            have hrf : 0 ≤ ((ws - 4) / 7 - 7/10) / (3/10) :=
              div_nonneg (by linarith) (by norm_num)
            have hmul : 0 ≤ ((ws - 4) / 7 - 7/10) / (3/10) * (15/100) :=
              mul_nonneg hrf (by norm_num)
            linarith
          · refine lt_max_iff.mpr (Or.inr (mul_pos he ?_))
            have hrf : 0 ≤ ((ws - 4) / 7 - 7/10) / (3/10) :=
              div_nonneg (by linarith) (by norm_num)
            have hmul : 0 ≤ ((ws - 4) / 7 - 7/10) / (3/10) * (15/100) :=
              mul_nonneg hrf (by norm_num)
            linarith
          · exact lt_min (lt_min (mul_pos he (by nlinarith)) (mul_pos hmaxP (by norm_num)))
              (mul_pos hminP (by norm_num))
          · exact lt_min (mul_pos he (by nlinarith)) (mul_pos hmaxP (by norm_num))
        · rw [if_neg hu4]
          split_ifs with hd
          · exact lt_min (lt_min (mul_pos he (by nlinarith)) (mul_pos hmaxP (by norm_num)))
              (mul_pos hminP (by norm_num))
          · exact lt_min (mul_pos he (by nlinarith)) (mul_pos hmaxP (by norm_num))
      · rw [if_neg hz2]
        exact mul_pos he (by linarith)
  · rw [if_neg hu6]
    rcases hfe : spikePositions.find? (fun spikePos => |ws - spikePos| < 6/5) with _ | p
    · exact mul_pos (mul_pos hminP (by norm_num)) (by linarith)
    · have hstr : 0 ≤ o.exp (-8 * (|ws - p| / (6/5)) * (|ws - p| / (6/5))) := ho.2 _
      have hdiff : 0 ≤ e * (85/100) * (7/10 + r * (15/100)) - e * (85/100) * (45/100) := by
        nlinarith
      nlinarith [mul_nonneg hdiff hstr, mul_pos hminP (by norm_num : (0:ℚ) < 45/100)]

theorem computeActual_zero_at3 (unitId : ℕ) (o : MathOracle) (r : ℚ) :
    computeActual unitId o r 3 (calculateExpectedPower 3)
      (calculateExpectedPower 3 * (85/100)) (calculateExpectedPower 3 * (105/100)) = 0 := by
  have he : calculateExpectedPower 3 = 0 := by
    rw [calculateExpectedPower_cubic (le_refl 3) (by norm_num)]
    norm_num
  rw [he]
  simp only [computeActual]
  by_cases hu6 : unitId ≠ 6
  · rw [if_pos hu6, if_neg (by norm_num : ¬ ((3:ℚ) > 11)),
        if_neg (by norm_num : ¬ ((4:ℚ) ≤ 3 ∧ (3:ℚ) ≤ 11))]
    ring
  · rw [if_neg hu6, findSpike_none_low (by norm_num)]
    ring

theorem computeActual_zero_at25 (unitId : ℕ) (o : MathOracle) (r : ℚ) :
    computeActual unitId o r 25 (calculateExpectedPower 25)
      (calculateExpectedPower 25 * (85/100)) (calculateExpectedPower 25 * (105/100)) = 0 := by
  have he : calculateExpectedPower 25 = 0 := calculateExpectedPower_cutout (le_refl 25)
  rw [he]
  simp only [computeActual]
  by_cases hu6 : unitId ≠ 6
  · rw [if_pos hu6, if_pos (by norm_num : (25:ℚ) > 11)]
    simp
  · rw [if_neg hu6, findSpike_none_high (by norm_num)]
    ring

theorem mkSample_windSpeed (unitId numPoints : ℕ) (now : ℤ) (o : MathOracle) (r ws : ℚ) :
    (mkSample unitId numPoints now o r ws).windSpeed = round2 ws :=
  rfl

theorem mkSample_minPower (unitId numPoints : ℕ) (now : ℤ) (o : MathOracle) (r ws : ℚ) :
    (mkSample unitId numPoints now o r ws).minPower =
      round1 (calculateExpectedPower ws * (85/100)) :=
  rfl

theorem mkSample_maxPower (unitId numPoints : ℕ) (now : ℤ) (o : MathOracle) (r ws : ℚ) :
    (mkSample unitId numPoints now o r ws).maxPower =
      round1 (calculateExpectedPower ws * (105/100)) :=
  rfl

theorem mkSample_expectedPower (unitId numPoints : ℕ) (now : ℤ) (o : MathOracle) (r ws : ℚ) :
    (mkSample unitId numPoints now o r ws).expectedPower =
      round1 (calculateExpectedPower ws) :=
  rfl

theorem mkSample_actualPower (unitId numPoints : ℕ) (now : ℤ) (o : MathOracle) (r ws : ℚ) :
    (mkSample unitId numPoints now o r ws).actualPower =
      if 3 ≤ ws ∧ ws ≤ 25 then
        (if computeActual unitId o r ws (calculateExpectedPower ws)
              (calculateExpectedPower ws * (85/100))
              (calculateExpectedPower ws * (105/100)) = 0 then none
         else some (round1 (computeActual unitId o r ws (calculateExpectedPower ws)
            (calculateExpectedPower ws * (85/100)) (calculateExpectedPower ws * (105/100)))))
      else none :=
  rfl

theorem genPCAux_map_det (unitId numPoints : ℕ) (now : ℤ) (o : MathOracle)
    (rndA rndB : ℕ → ℚ) :
    ∀ (l : List ℚ) (i j : ℕ),
      (genPCAux unitId numPoints now o rndA i l).map
          (fun p => (p.windSpeed, p.minPower, p.maxPower, p.expectedPower)) =
        (genPCAux unitId numPoints now o rndB j l).map
          (fun p => (p.windSpeed, p.minPower, p.maxPower, p.expectedPower))
  | [], _, _ => rfl
  | ws :: rest, i, j => by
    simp only [genPCAux, List.map_cons]
    exact congrArg₂ List.cons rfl (genPCAux_map_det unitId numPoints now o rndA rndB rest (i+1) (j+1))

theorem genPCAux_length (unitId numPoints : ℕ) (now : ℤ) (o : MathOracle) (rnd : ℕ → ℚ) :
    ∀ (l : List ℚ) (i : ℕ), (genPCAux unitId numPoints now o rnd i l).length = l.length
  | [], _ => rfl
  | _ :: rest, i => by
    simp only [genPCAux, List.length_cons]
    exact congrArg Nat.succ (genPCAux_length unitId numPoints now o rnd rest (i+1))

/-- C9: two runs of `generatePowerCurveData` for the same unit, with
arbitrary (possibly different) random streams, return sequences of the same
length whose `windSpeed`, `minPower`, `maxPower` and `expectedPower` agree
at every position; only `actualPower` can differ, because those four fields
are computed from the fixed wind-speed grid alone. -/
theorem c9_deterministic_fields (unitId numPoints : ℕ) (now : ℤ) (o : MathOracle)
    (rndA rndB : ℕ → ℚ) :
    (generatePowerCurveData unitId numPoints now o rndA).map
        (fun p => (p.windSpeed, p.minPower, p.maxPower, p.expectedPower)) =
      (generatePowerCurveData unitId numPoints now o rndB).map
        (fun p => (p.windSpeed, p.minPower, p.maxPower, p.expectedPower)) ∧
    (generatePowerCurveData unitId numPoints now o rndA).length =
      (generatePowerCurveData unitId numPoints now o rndB).length :=
  ⟨genPCAux_map_det unitId numPoints now o rndA rndB windSpeeds 0 0,
   by rw [generatePowerCurveData, generatePowerCurveData,
          genPCAux_length unitId numPoints now o rndA windSpeeds 0,
          genPCAux_length unitId numPoints now o rndB windSpeeds 0]⟩

theorem three_mem_windSpeeds : (3 : ℚ) ∈ windSpeeds := by
  rw [windSpeeds]
  refine List.mem_append.mpr (Or.inl (List.mem_append.mpr (Or.inl ?_)))
  exact List.mem_map.mpr ⟨6, List.mem_range.mpr (by norm_num), by norm_num⟩

theorem sevenHalves_mem_windSpeeds : (7/2 : ℚ) ∈ windSpeeds := by
  rw [windSpeeds]
  refine List.mem_append.mpr (Or.inl (List.mem_append.mpr (Or.inl ?_)))
  exact List.mem_map.mpr ⟨7, List.mem_range.mpr (by norm_num), by norm_num⟩

/-- C4 amended: a generated sample carries an `actualPower` value exactly
when its wind speed lies STRICTLY between 3 and 25 m/s.  At exactly 3 m/s
(a sampled grid point) the computed actual power is 0 and the JS truthiness
check `actualPower ? ... : undefined` drops it, and at 25 m/s (also sampled,
since the source guard is `windSpeed <= 25`) the expected power is already 0
past cut-out, so the field is likewise absent. -/
theorem c4_actual_power_presence (unitId numPoints : ℕ) (now : ℤ) (o : MathOracle)
    (rnd : ℕ → ℚ) (ho : ValidOracle o) (hr : ValidRand rnd) :
    ∀ p ∈ generatePowerCurveData unitId numPoints now o rnd,
      (p.actualPower ≠ none ↔ 3 < p.windSpeed ∧ p.windSpeed < 25) := by
  intro p hp
  obtain ⟨ws, hws, j, rfl⟩ := mem_genPCAux hp
  have hfix : round2 ws = ws := round2_windSpeeds hws
  have hbounds := windSpeeds_bounds hws
  rw [mkSample_windSpeed, hfix, mkSample_actualPower]
  by_cases h3 : 3 < ws
  · by_cases h25 : ws < 25
    · have hpos := @computeActual_pos unitId o (rnd j) ws ho (hr j).1 h3 h25
      rw [if_pos ⟨le_of_lt h3, hbounds.2⟩, if_neg (ne_of_gt hpos)]
      simp only [ne_eq, reduceCtorEq, not_false_eq_true, true_iff]
      exact ⟨h3, h25⟩
    · have hws25 : ws = 25 := le_antisymm hbounds.2 (not_lt.mp h25)
      subst hws25
      rw [if_pos (by norm_num), if_pos (computeActual_zero_at25 unitId o (rnd j))]
      simp
  · by_cases heq : ws = 3
    · subst heq
      rw [if_pos (by norm_num), if_pos (computeActual_zero_at3 unitId o (rnd j))]
      simp
    · have hlt : ws < 3 := lt_of_le_of_ne (not_lt.mp h3) heq
      rw [if_neg (by intro hc; exact absurd hc.1 (not_le.mpr hlt))]
      simp only [ne_eq, not_true_eq_false, false_iff, not_and, not_lt]
      intro hc
      exact absurd hc (not_lt.mpr (le_of_lt hlt))

/-- C4 counterexample: wind speed 3 m/s IS sampled and lies in the claimed
presence window [3, 25), yet the generated sample at 3 m/s has no
`actualPower` (the computed value 0 is dropped by the JS truthiness check). -/
theorem c4_counterexample :
    mkSample 1 200 0 o0 0 3 ∈ generatePowerCurveData 1 200 0 o0 rnd0 ∧
    (mkSample 1 200 0 o0 0 3).windSpeed = 3 ∧
    (mkSample 1 200 0 o0 0 3).actualPower = none := by
  refine ⟨?_, ?_, ?_⟩
  · obtain ⟨j, hj⟩ := genPCAux_mem_of 1 200 0 o0 rnd0 0 windSpeeds three_mem_windSpeeds
    exact hj
  · rw [mkSample_windSpeed]
    have h30 := round2_tenth 30
    norm_num at h30
    exact h30
  · rw [mkSample_actualPower, if_pos (by norm_num),
        if_pos (computeActual_zero_at3 1 o0 0)]

/-- Witness for C4 at a concrete input: unit 1, the zero oracle and the
all-zero random stream, applied to the sample at 3.5 m/s. -/
theorem c4_actual_power_presence_witness :
    mkSample 1 200 0 o0 0 (7/2) ∈ generatePowerCurveData 1 200 0 o0 rnd0 ∧
    ((mkSample 1 200 0 o0 0 (7/2)).actualPower ≠ none ↔
      3 < (mkSample 1 200 0 o0 0 (7/2)).windSpeed ∧
        (mkSample 1 200 0 o0 0 (7/2)).windSpeed < 25) := by
  have hmem : mkSample 1 200 0 o0 0 (7/2) ∈ generatePowerCurveData 1 200 0 o0 rnd0 := by
    obtain ⟨j, hj⟩ := genPCAux_mem_of 1 200 0 o0 rnd0 0 windSpeeds sevenHalves_mem_windSpeeds
    exact hj
  exact ⟨hmem,
    c4_actual_power_presence 1 200 0 o0 rnd0 validOracle_o0 validRand_rnd0 _ hmem⟩

/-- C7 amended: in every generated sample, `minPower <= maxPower`, and the
`minPower` / `maxPower` fields are the one-decimal roundings of 0.85 / 1.05
times the UNROUNDED expected power at the sample's wind speed (whose own
one-decimal rounding is the `expectedPower` field).  Rounding after scaling
the already-rounded `expectedPower` field gives a different value on several
grid points, so the envelope must be computed from the raw expected power. -/
theorem c7_envelope_fields (unitId numPoints : ℕ) (now : ℤ) (o : MathOracle) (rnd : ℕ → ℚ) :
    ∀ p ∈ generatePowerCurveData unitId numPoints now o rnd,
      p.minPower ≤ p.maxPower ∧
      p.minPower = round1 (calculateExpectedPower p.windSpeed * (85/100)) ∧
      p.maxPower = round1 (calculateExpectedPower p.windSpeed * (105/100)) ∧
      p.expectedPower = round1 (calculateExpectedPower p.windSpeed) := by
  intro p hp
  obtain ⟨ws, hws, j, rfl⟩ := mem_genPCAux hp
  have hfix : round2 ws = ws := round2_windSpeeds hws
  rw [mkSample_windSpeed, hfix, mkSample_minPower, mkSample_maxPower, mkSample_expectedPower]
  have he := calculateExpectedPower_nonneg ws
  exact ⟨round1_mono (by nlinarith), rfl, rfl, rfl⟩

/-- C7 counterexample: at the sampled wind speed 3.5 m/s the generated
sample has `expectedPower = 0.3` and `maxPower = 0.4`, but rounding
`1.05 * expectedPower` computed from the ROUNDED field gives
`round1(0.315) = 0.3 ≠ 0.4`: the claimed identity
`maxPower == round(1.05 * expectedPower, 1)` fails when `expectedPower`
denotes the sample's (rounded) field. -/
theorem c7_counterexample :
    mkSample 1 200 0 o0 0 (7/2) ∈ generatePowerCurveData 1 200 0 o0 rnd0 ∧
    (mkSample 1 200 0 o0 0 (7/2)).expectedPower = 3/10 ∧
    (mkSample 1 200 0 o0 0 (7/2)).maxPower = 2/5 ∧
    round1 ((mkSample 1 200 0 o0 0 (7/2)).expectedPower * (105/100)) = 3/10 ∧
    (mkSample 1 200 0 o0 0 (7/2)).maxPower ≠
      round1 ((mkSample 1 200 0 o0 0 (7/2)).expectedPower * (105/100)) := by
  have he : calculateExpectedPower (7/2) = 250/729 := by
    rw [calculateExpectedPower_cubic (by norm_num) (by norm_num)]
    norm_num
  have hexp : (mkSample 1 200 0 o0 0 (7/2)).expectedPower = 3/10 := by
    rw [mkSample_expectedPower, he]
    norm_num [round1, jsRound]
  have hmax : (mkSample 1 200 0 o0 0 (7/2)).maxPower = 2/5 := by
    rw [mkSample_maxPower, he]
    norm_num [round1, jsRound]
  have hre : round1 ((3:ℚ)/10 * (105/100)) = 3/10 := by
    norm_num [round1, jsRound]
  refine ⟨?_, hexp, hmax, ?_, ?_⟩
  · obtain ⟨j, hj⟩ := genPCAux_mem_of 1 200 0 o0 rnd0 0 windSpeeds sevenHalves_mem_windSpeeds
    exact hj
  · rw [hexp]
    exact hre
  · rw [hexp, hmax, hre]
    norm_num

/-- Witness for C7 at a concrete input: the sample at 3.5 m/s of unit 1. -/
theorem c7_envelope_fields_witness :
    mkSample 1 200 0 o0 0 (7/2) ∈ generatePowerCurveData 1 200 0 o0 rnd0 ∧
    ((mkSample 1 200 0 o0 0 (7/2)).minPower ≤ (mkSample 1 200 0 o0 0 (7/2)).maxPower ∧
      (mkSample 1 200 0 o0 0 (7/2)).minPower =
        round1 (calculateExpectedPower (mkSample 1 200 0 o0 0 (7/2)).windSpeed * (85/100)) ∧
      (mkSample 1 200 0 o0 0 (7/2)).maxPower =
        round1 (calculateExpectedPower (mkSample 1 200 0 o0 0 (7/2)).windSpeed * (105/100)) ∧
      (mkSample 1 200 0 o0 0 (7/2)).expectedPower =
        round1 (calculateExpectedPower (mkSample 1 200 0 o0 0 (7/2)).windSpeed)) := by
  have hmem : mkSample 1 200 0 o0 0 (7/2) ∈ generatePowerCurveData 1 200 0 o0 rnd0 := by
    obtain ⟨j, hj⟩ := genPCAux_mem_of 1 200 0 o0 rnd0 0 windSpeeds sevenHalves_mem_windSpeeds
    exact hj
  exact ⟨hmem, c7_envelope_fields 1 200 0 o0 rnd0 _ hmem⟩

/-! ## Unit registry and factor initialization (source lines 313-469) -/

inductive UnitStatus
  | normal
  | warning
  | critical
deriving DecidableEq

structure UnitInfo where
  id : ℕ
  name : String
  currentYield : ℚ
  status : UnitStatus
deriving DecidableEq

/-- Embedding of `generateUnitsInfo` (source lines 314-323): the fixed
six-unit catalogue. -/
def generateUnitsInfo : List UnitInfo :=
  [ { id := 1, name := "Unit 1", currentYield := 972/10, status := UnitStatus.normal },
    { id := 2, name := "Unit 2", currentYield := 985/10, status := UnitStatus.normal },
    { id := 3, name := "Unit 3", currentYield := 958/10, status := UnitStatus.normal },
    { id := 4, name := "Unit 4", currentYield := 913/10, status := UnitStatus.warning },
    { id := 5, name := "Unit 5", currentYield := 967/10, status := UnitStatus.normal },
    { id := 6, name := "Unit 6", currentYield := 80, status := UnitStatus.critical } ]

/-- The per-point value draw of `generateInitialHistory` (source lines
351-391); same class-conditional ranges as `drawNewValue`, except that the
default branch yields 0 instead of the previous value. -/
def initialHistoryValue (factorId : String) (isCritical : Bool) (r1 r2 : ℚ) : ℚ :=
  if isCritical then
    let isAnomaly := r1 > 7/10
    if factorId = "pitch" then (if isAnomaly then 20 + r2 * 8 else 12 + r2 * 8)
    else if factorId = "rotor" then (if isAnomaly then 6 + r2 * 3 else 11 + r2 * 4)
    else if factorId = "generator" then 85 + r2 * 10
    else if factorId = "windSpeed" then (if isAnomaly then 5 + r2 * 2 else 6 + r2 * 3)
    else 0
  else
    if factorId = "pitch" then 2 + r2 * 3
    else if factorId = "rotor" then 14 + r2 * 4
    else if factorId = "generator" then 68 + r2 * 6
    else if factorId = "windSpeed" then 9 + r2 * 4
    else 0

/-- Embedding of `generateInitialHistory` (source lines 340-400). -/
def generateInitialHistory (factorId : String) (isCritical : Bool) (dateNow : ℤ)
    (rnd : ℕ → ℚ) (numPoints : ℕ) : List HistoryPoint :=
  (List.range numPoints).map fun i : ℕ =>
    { time := dateNow - ((numPoints : ℤ) - (i : ℤ)) * 5000
      value := round1 (initialHistoryValue factorId isCritical (rnd (2*i)) (rnd (2*i+1))) }

/-- Embedding of `calculateInitialDeviation` (source lines 407-426); the
formulas are those of `generateNextDataPoint` lines 529-543. -/
def calculateInitialDeviation (value : ℚ) (nr : NormalRange) : ℚ × ℚ :=
  let deviation := computeDeviation value nr
  let deviationScore := computeDeviationScore deviation nr
  (round1 deviation, round1 deviationScore)

/-- Embedding of `initializeCorrelationFactors` (source lines 403-469). -/
def initializeCorrelationFactors (unitId : ℕ) (dateNow : ℤ) (rnds : ℕ → ℕ → ℚ) :
    List CorrelationFactor :=
  let isCritical := unitId == 6
  let mk : ℕ → String → String → ℚ → String → NormalRange → CorrelationFactor :=
    fun idx fid fname fvalue funit nr =>
      let ds := calculateInitialDeviation fvalue nr
      { id := fid, name := fname, value := fvalue, deviation := ds.1,
        deviationScore := ds.2, unit := funit, normalRange := nr,
        history := generateInitialHistory fid isCritical dateNow (rnds idx) 30 }
  [ mk 0 "pitch" "Pitch Angle" (if isCritical then 18 else 3) "°"
      { min := 0, max := 5 },
    mk 1 "rotor" "Rotor Speed" (if isCritical then 9 else 16) "RPM"
      { min := 14, max := 18 },
    mk 2 "generator" "Generator Temp" (if isCritical then 87 else 72) "°C"
      { min := 65, max := 75 },
    mk 3 "windSpeed" "Wind Speed" (if isCritical then 6 else 10) "m/s"
      { min := 8, max := 14 } ]

/-! ## Distribution synthesizer (source lines 570-674) -/

structure BellCurveDataPoint where
  value : ℚ
  density : ℚ
deriving DecidableEq

structure DistributionData where
  reference : List BellCurveDataPoint
  actual : List BellCurveDataPoint
  referenceMean : ℚ
  referenceStdDev : ℚ
  actualMean : ℚ
  actualStdDev : ℚ
deriving DecidableEq

/-- Embedding of `generateBellCurveData` (source lines 588-613);
`o.sqrt2pi` models `Math.sqrt(2 * Math.PI)` and `o.exp` models `Math.exp`. -/
def generateBellCurveData (o : MathOracle) (mean stdDev rangeMin rangeMax : ℚ)
    (numPoints : ℕ) : List BellCurveDataPoint :=
  let step := (rangeMax - rangeMin) / (numPoints : ℚ)
  (List.range (numPoints + 1)).map fun i =>
    let x := rangeMin + (i : ℚ) * step
    let exponent := -((x - mean) ^ 2) / (2 * stdDev ^ 2)
    let coefficient := 1 / (stdDev * o.sqrt2pi)
    let density := coefficient * o.exp exponent
    { value := round2 x, density := round3 density }

/-- Embedding of `generateDistributionData` (source lines 619-674); `r` is
the `Math.random()` draw of the nominal branch. -/
def generateDistributionData (o : MathOracle) (factor : CorrelationFactor) (unitId : ℕ)
    (r : ℚ) : DistributionData :=
  let isCritical := unitId == 6
  let isWarning := unitId == 4
  let referenceMean := (factor.normalRange.min + factor.normalRange.max) / 2
  let referenceStdDev := (factor.normalRange.max - factor.normalRange.min) / 6
  let ms : ℚ × ℚ :=
    if isCritical then
      let shiftAmount := (factor.normalRange.max - factor.normalRange.min) * (4/10)
      (if factor.value < referenceMean then referenceMean - shiftAmount
       else referenceMean + shiftAmount, referenceStdDev * 2)
    else if isWarning then
      let shiftAmount := (factor.normalRange.max - factor.normalRange.min) * (25/100)
      (if factor.value < referenceMean then referenceMean - shiftAmount
       else referenceMean + shiftAmount, referenceStdDev * (14/10))
    else
      (referenceMean + (r - 1/2) * referenceStdDev * (5/10), referenceStdDev * (11/10))
  let rangeWidth := factor.normalRange.max - factor.normalRange.min
  let rangeMin := factor.normalRange.min - rangeWidth * (5/10)
  let rangeMax := factor.normalRange.max + rangeWidth * (5/10)
  { reference := generateBellCurveData o referenceMean referenceStdDev rangeMin rangeMax 100
    actual := generateBellCurveData o ms.1 ms.2 rangeMin rangeMax 100
    referenceMean := round2 referenceMean
    referenceStdDev := round2 referenceStdDev
    actualMean := round2 ms.1
    actualStdDev := round2 ms.2 }

/-- The concrete scenario factor of the spec: a generator-temperature factor
with normal range [65, 75] whose current value is 87. -/
def genFactor87 : CorrelationFactor :=
  { id := "generator", name := "Generator Temp", value := 87, deviation := 12,
    deviationScore := 100, unit := "°C", normalRange := { min := 65, max := 75 },
    history := [] }

theorem distributionData_critical (o : MathOracle) (factor : CorrelationFactor) (r : ℚ) :
    (generateDistributionData o factor 6 r).referenceMean =
      round2 ((factor.normalRange.min + factor.normalRange.max) / 2) ∧
    (generateDistributionData o factor 6 r).referenceStdDev =
      round2 ((factor.normalRange.max - factor.normalRange.min) / 6) ∧
    (generateDistributionData o factor 6 r).actualStdDev =
      round2 ((factor.normalRange.max - factor.normalRange.min) / 6 * 2) ∧
    (generateDistributionData o factor 6 r).actualMean =
      round2 (if factor.value < (factor.normalRange.min + factor.normalRange.max) / 2
        then (factor.normalRange.min + factor.normalRange.max) / 2 -
          (factor.normalRange.max - factor.normalRange.min) * (4/10)
        else (factor.normalRange.min + factor.normalRange.max) / 2 +
          (factor.normalRange.max - factor.normalRange.min) * (4/10)) := by
  refine ⟨rfl, rfl, rfl, ?_⟩
  simp only [generateDistributionData, show ((6:ℕ) == 6) = true from rfl,
    show ((6:ℕ) == 4) = false from rfl, if_true, Bool.false_eq_true, if_false,
    eq_self_iff_true]

/-- C6 amended: for every factor with a non-degenerate normal range, the
critical-class (unit 6) distribution returns the two-decimal ROUNDINGS of
the exact relations: raw actualStdDev = 2 * raw referenceStdDev with raw
referenceStdDev = (max-min)/6, and raw actualMean = referenceMean ±
0.4*(max-min) (minus when the factor's value lies below the reference mean,
plus otherwise).  On the returned rounded fields the literal identity
actualStdDev == 2 * referenceStdDev can fail by one hundredth; the concrete
scenario normalRange [65,75], value 87 returns (70, 1.67, 74, 3.33). -/
theorem c6_critical_distribution :
    (∀ (o : MathOracle) (factor : CorrelationFactor) (r : ℚ),
      factor.normalRange.min < factor.normalRange.max →
      ((generateDistributionData o factor 6 r).referenceMean =
          round2 ((factor.normalRange.min + factor.normalRange.max) / 2) ∧
        (generateDistributionData o factor 6 r).referenceStdDev =
          round2 ((factor.normalRange.max - factor.normalRange.min) / 6) ∧
        (generateDistributionData o factor 6 r).actualStdDev =
          round2 ((factor.normalRange.max - factor.normalRange.min) / 6 * 2) ∧
        (factor.value < (factor.normalRange.min + factor.normalRange.max) / 2 →
          (generateDistributionData o factor 6 r).actualMean =
            round2 ((factor.normalRange.min + factor.normalRange.max) / 2 -
              (factor.normalRange.max - factor.normalRange.min) * (4/10))) ∧
        ((factor.normalRange.min + factor.normalRange.max) / 2 ≤ factor.value →
          (generateDistributionData o factor 6 r).actualMean =
            round2 ((factor.normalRange.min + factor.normalRange.max) / 2 +
              (factor.normalRange.max - factor.normalRange.min) * (4/10))))) ∧
    (∀ (o : MathOracle) (r : ℚ),
      (generateDistributionData o genFactor87 6 r).referenceMean = 70 ∧
      (generateDistributionData o genFactor87 6 r).referenceStdDev = 167/100 ∧
      (generateDistributionData o genFactor87 6 r).actualMean = 74 ∧
      (generateDistributionData o genFactor87 6 r).actualStdDev = 333/100) := by
  constructor
  · intro o factor r _hw
    obtain ⟨h1, h2, h3, h4⟩ := distributionData_critical o factor r
    refine ⟨h1, h2, h3, ?_, ?_⟩
    · intro hlt
      rw [h4, if_pos hlt]
    · intro hge
      rw [h4, if_neg (not_lt.mpr hge)]
  · intro o r
    obtain ⟨h1, h2, h3, h4⟩ := distributionData_critical o genFactor87 r
    have hn : ¬ (genFactor87.value <
        (genFactor87.normalRange.min + genFactor87.normalRange.max) / 2) := by
      norm_num [genFactor87]
    rw [h4, if_neg hn] at *
    refine ⟨?_, ?_, ?_, ?_⟩
    · rw [h1]; norm_num [genFactor87, round2, jsRound]
    · rw [h2]; norm_num [genFactor87, round2, jsRound]
    · norm_num [genFactor87, round2, jsRound]
    · rw [h3]; norm_num [genFactor87, round2, jsRound]

/-- C6 counterexample: on the returned (two-decimal rounded) fields of the
concrete scenario the claimed identity actualStdDev == 2.0 * referenceStdDev
fails: the record holds referenceStdDev = 1.67 and actualStdDev = 3.33, but
2 * 1.67 = 3.34. -/
theorem c6_counterexample :
    (generateDistributionData o0 genFactor87 6 0).referenceStdDev = 167/100 ∧
    (generateDistributionData o0 genFactor87 6 0).actualStdDev = 333/100 ∧
    (generateDistributionData o0 genFactor87 6 0).actualStdDev ≠
      2 * (generateDistributionData o0 genFactor87 6 0).referenceStdDev := by
  obtain ⟨_, h2, h3, _⟩ := distributionData_critical o0 genFactor87 0
  have href : (generateDistributionData o0 genFactor87 6 0).referenceStdDev = 167/100 := by
    rw [h2]; norm_num [genFactor87, round2, jsRound]
  have hact : (generateDistributionData o0 genFactor87 6 0).actualStdDev = 333/100 := by
    rw [h3]; norm_num [genFactor87, round2, jsRound]
  refine ⟨href, hact, ?_⟩
  rw [href, hact]
  norm_num

/-- Witness for C6 at a concrete input: the zero oracle, the concrete
scenario factor, and a zero random draw. -/
theorem c6_critical_distribution_witness :
    (generateDistributionData o0 genFactor87 6 0).referenceMean =
      round2 ((genFactor87.normalRange.min + genFactor87.normalRange.max) / 2) ∧
    (generateDistributionData o0 genFactor87 6 0).referenceMean = 70 :=
  ⟨(c6_critical_distribution.1 o0 genFactor87 0 (by norm_num [genFactor87])).1,
   (c6_critical_distribution.2 o0 0).1⟩

theorem generateNextDataPoint_unknown {u : ℕ} (hu : u ≠ 6) (t : ℕ)
    (fs : List CorrelationFactor) (dn : ℤ) (rnd : ℕ → ℚ) :
    generateNextDataPoint u t fs dn rnd = generateNextDataPoint 1 t fs dn rnd := by
  rw [generateNextDataPoint, generateNextDataPoint, beq_eq_false_iff_ne.mpr hu]
  rfl

theorem computeActual_unknown {u : ℕ} (hu6 : u ≠ 6) (hu4 : u ≠ 4) (o : MathOracle)
    (r ws e mn mx : ℚ) :
    computeActual u o r ws e mn mx = computeActual 1 o r ws e mn mx := by
  simp only [computeActual, if_pos hu6, if_neg hu4,
    if_pos (show (1:ℕ) ≠ 6 by norm_num), if_neg (show ¬ (1:ℕ) = 4 by norm_num)]

theorem mkSample_unknown {u : ℕ} (hu6 : u ≠ 6) (hu4 : u ≠ 4) (numPoints : ℕ) (now : ℤ)
    (o : MathOracle) (r ws : ℚ) :
    mkSample u numPoints now o r ws = mkSample 1 numPoints now o r ws := by
  simp only [mkSample, computeActual_unknown hu6 hu4]

theorem genPCAux_unknown {u : ℕ} (hu6 : u ≠ 6) (hu4 : u ≠ 4) (numPoints : ℕ) (now : ℤ)
    (o : MathOracle) (rnd : ℕ → ℚ) :
    ∀ (l : List ℚ) (i : ℕ),
      genPCAux u numPoints now o rnd i l = genPCAux 1 numPoints now o rnd i l
  | [], _ => rfl
  | ws :: rest, i => by
    simp only [genPCAux]
    exact congrArg₂ List.cons (mkSample_unknown hu6 hu4 numPoints now o (rnd i) ws)
      (genPCAux_unknown hu6 hu4 numPoints now o rnd rest (i+1))

theorem generatePowerCurveData_unknown {u : ℕ} (hu6 : u ≠ 6) (hu4 : u ≠ 4)
    (numPoints : ℕ) (now : ℤ) (o : MathOracle) (rnd : ℕ → ℚ) :
    generatePowerCurveData u numPoints now o rnd =
      generatePowerCurveData 1 numPoints now o rnd :=
  genPCAux_unknown hu6 hu4 numPoints now o rnd windSpeeds 0

theorem initializeCorrelationFactors_unknown {u : ℕ} (hu : u ≠ 6) (dn : ℤ)
    (rnds : ℕ → ℕ → ℚ) :
    initializeCorrelationFactors u dn rnds = initializeCorrelationFactors 1 dn rnds := by
  simp only [initializeCorrelationFactors, beq_eq_false_iff_ne.mpr hu,
    show ((1:ℕ) == 6) = false from rfl]

theorem generateDistributionData_unknown {u : ℕ} (hu6 : u ≠ 6) (hu4 : u ≠ 4)
    (o : MathOracle) (f : CorrelationFactor) (r : ℚ) :
    generateDistributionData o f u r = generateDistributionData o f 1 r := by
  simp only [generateDistributionData, beq_eq_false_iff_ne.mpr hu6,
    beq_eq_false_iff_ne.mpr hu4, show ((1:ℕ) == 6) = false from rfl,
    show ((1:ℕ) == 4) = false from rfl]

/-- C5 amended: a unit id outside the six-unit registry produces NO explicit
"unknown unit" signal anywhere: every generator branches only on
`unitId === 6` (and `=== 4`), so an out-of-registry id is silently treated
as the nominal behavioural class, and each generator returns exactly what it
returns for the in-registry nominal unit 1 on every input. -/
theorem c5_unknown_unit_defaults (u : ℕ)
    (hu : u ∉ generateUnitsInfo.map UnitInfo.id) :
    (∀ (t : ℕ) (fs : List CorrelationFactor) (dn : ℤ) (rnd : ℕ → ℚ),
      generateNextDataPoint u t fs dn rnd = generateNextDataPoint 1 t fs dn rnd) ∧
    (∀ (np : ℕ) (now : ℤ) (o : MathOracle) (rnd : ℕ → ℚ),
      generatePowerCurveData u np now o rnd = generatePowerCurveData 1 np now o rnd) ∧
    (∀ (dn : ℤ) (rnds : ℕ → ℕ → ℚ),
      initializeCorrelationFactors u dn rnds = initializeCorrelationFactors 1 dn rnds) ∧
    (∀ (o : MathOracle) (f : CorrelationFactor) (r : ℚ),
      generateDistributionData o f u r = generateDistributionData o f 1 r) := by
  have hu6 : u ≠ 6 := by
    intro h
    subst h
    exact hu (by simp [generateUnitsInfo])
  have hu4 : u ≠ 4 := by
    intro h
    subst h
    exact hu (by simp [generateUnitsInfo])
  exact ⟨fun t fs dn rnd => generateNextDataPoint_unknown hu6 t fs dn rnd,
    fun np now o rnd => generatePowerCurveData_unknown hu6 hu4 np now o rnd,
    fun dn rnds => initializeCorrelationFactors_unknown hu6 dn rnds,
    fun o f r => generateDistributionData_unknown hu6 hu4 o f r⟩

/-- C5 counterexample: unit id 99 is outside the registry, yet every core
generator silently returns the nominal-unit output (identical to unit 1's)
instead of any "unknown unit" error signal. -/
theorem c5_counterexample :
    (99 : ℕ) ∉ generateUnitsInfo.map UnitInfo.id ∧
    generateNextDataPoint 99 0 [rotorTest] 0 rnd0 =
      generateNextDataPoint 1 0 [rotorTest] 0 rnd0 ∧
    generatePowerCurveData 99 200 0 o0 rnd0 = generatePowerCurveData 1 200 0 o0 rnd0 ∧
    initializeCorrelationFactors 99 0 (fun _ => rnd0) =
      initializeCorrelationFactors 1 0 (fun _ => rnd0) ∧
    generateDistributionData o0 genFactor87 99 0 =
      generateDistributionData o0 genFactor87 1 0 := by
  refine ⟨by simp [generateUnitsInfo], ?_, ?_, ?_, ?_⟩
  · exact generateNextDataPoint_unknown (by norm_num) 0 [rotorTest] 0 rnd0
  · exact generatePowerCurveData_unknown (by norm_num) (by norm_num) 200 0 o0 rnd0
  · exact initializeCorrelationFactors_unknown (by norm_num) 0 _
  · exact generateDistributionData_unknown (by norm_num) (by norm_num) o0 genFactor87 0

/-- Witness for C5 at the concrete out-of-registry id 99. -/
theorem c5_unknown_unit_defaults_witness :
    generateNextDataPoint 99 0 [pitchTest] 0 rnd0 =
      generateNextDataPoint 1 0 [pitchTest] 0 rnd0 :=
  (c5_unknown_unit_defaults 99 (by simp [generateUnitsInfo])).1 0 [pitchTest] 0 rnd0
